import Mathlib

/-!
Verification of the `Dependency` container of `src/library/simple-di/dependencies.ts`.

The container holds three slots (`#serviceInjected`, `#serviceCached`, the recipe
`(serviceInitializer, args)` with a `cacheable` flag) plus a `DisposableStack`.
We embed its state shallowly:

* JavaScript values are modelled by `JSValue`: an identity tag `vid`
  (two values are reference-equal iff their tags are equal), a flag `isObj`
  (whether `typeof v === 'object'`), JS truthiness, and whether the value has a
  `Symbol.dispose` member.
* `Reflect.construct(serviceInitializer, args)` is modelled by `CtorSpec`:
  either every invocation builds a fresh object (fresh identity tag drawn from
  an allocation counter `nextId`; class instances are always truthy objects), or
  every invocation throws a fixed error.
* The `DisposableStack` is modelled by the list `stackDisposables` of values
  registered through `stack.use` (in registration order) together with a
  `stackDisposed` flag.  The `stack.adopt(this.injection, cb)` entry made by the
  constructor is the bottom entry of the stack, so on disposal its callback
  (which sets `#serviceInjected = undefined`) runs after all `use` entries have
  been disposed; we inline it into `dispose`.
* Two ghost logs record the observable events the claims speak about:
  `released` lists the identity tags of every value whose `Symbol.dispose` the
  container invoked (in invocation order, with multiplicity), and
  `constructedLog` lists the tags of every instance built from the recipe.
-/

namespace SimpleDI

/-- A JavaScript runtime value: identity tag, `typeof v === 'object'` flag,
JS truthiness, and presence of a `Symbol.dispose` member. -/
structure JSValue where
  vid : Nat
  isObj : Bool
  truthy : Bool
  disposable : Bool
deriving DecidableEq

/-- Model of `Reflect.construct(serviceInitializer, args)`: each invocation
either builds a fresh object (always truthy, with the given disposability) or
throws a fixed error identified by a code. -/
inductive CtorSpec where
  | builds (disposable : Bool)
  | throws (e : Nat)
deriving DecidableEq

/-- Errors that may surface from the container: the `ReferenceError` thrown by
`DisposableStack.use` on a disposed stack, or an error thrown by the recipe
constructor. -/
inductive JSErr where
  | referenceError
  | ctorError (e : Nat)
deriving DecidableEq

instance {ε α : Type} [DecidableEq ε] [DecidableEq α] : DecidableEq (Except ε α) :=
  fun a b =>
    match a, b with
    | Except.ok x, Except.ok y =>
      if h : x = y then isTrue (by rw [h])
      else isFalse (fun hh => h (Except.ok.inj hh))
    | Except.error x, Except.error y =>
      if h : x = y then isTrue (by rw [h])
      else isFalse (fun hh => h (Except.error.inj hh))
    | Except.ok _, Except.error _ => isFalse (fun hh => Except.noConfusion hh)
    | Except.error _, Except.ok _ => isFalse (fun hh => Except.noConfusion hh)

/-- State of one `Dependency<Service>` container
(`src/library/simple-di/dependencies.ts`). -/
structure Dependency where
  /-- The recipe `(serviceInitializer, args)`, both fixed at construction. -/
  serviceInitializer : CtorSpec
  /-- The `cacheable` flag, fixed at construction (default `true`). -/
  cacheable : Bool
  /-- The `#serviceInjected` slot (`none` = `undefined`). -/
  serviceInjected : Option JSValue
  /-- The `#serviceCached` slot (`none` = `undefined`). -/
  serviceCached : Option JSValue
  /-- The values registered on the `DisposableStack` via `use`, in order. -/
  stackDisposables : List JSValue
  /-- Whether `#stack.dispose()` has already run. -/
  stackDisposed : Bool
  /-- Allocation counter: identity tag of the next constructed instance. -/
  nextId : Nat
  /-- Ghost log: tags of values whose `Symbol.dispose` the container invoked. -/
  released : List Nat
  /-- Ghost log: tags of instances built from the recipe. -/
  constructedLog : List Nat
deriving DecidableEq

/-- `new Dependency(serviceInitializer, args, cacheable)`: all slots empty, no
instance built yet.  (The fresh allocation counter starts at `startId`, which
lets distinct containers allocate distinct identities; claims use `0`.) -/
def Dependency.new (ctor : CtorSpec) (cacheable : Bool) (startId : Nat := 0) :
    Dependency :=
  { serviceInitializer := ctor
    cacheable := cacheable
    serviceInjected := none
    serviceCached := none
    stackDisposables := []
    stackDisposed := false
    nextId := startId
    released := []
    constructedLog := [] }

/-- The structural check of `injection`:
`service && typeof service === 'object' && Symbol.dispose in service`. -/
def isDisposableVal (v : JSValue) : Bool :=
  v.truthy && v.isObj && v.disposable

/-- `injection(service)`: sets `#serviceInjected = service`, then, if the value
passes the disposable check, registers it with `#stack.use`.  On a disposed
stack, `use` throws a `ReferenceError` — note that the slot has already been
assigned at that point, so the assignment survives the throw. -/
def Dependency.injection (s : Dependency) (v : JSValue) :
    Dependency × Option JSErr :=
  let s1 := { s with serviceInjected := some v }
  if isDisposableVal v then
    if s.stackDisposed then
      (s1, some JSErr.referenceError)
    else
      ({ s1 with stackDisposables := s.stackDisposables ++ [v] }, none)
  else
    (s1, none)

/-- `clearInjected()`: sets `#serviceInjected = undefined` and nothing else. -/
def Dependency.clearInjected (s : Dependency) : Dependency :=
  { s with serviceInjected := none }

/-- The part of the `resolve` getter after the injected-slot check:
`if (!this.cacheable) this.#serviceCached = undefined;`
`return this.#serviceCached ??= Reflect.construct(serviceInitializer, args)`.
`??=` constructs only when the cache slot is nullish. -/
def Dependency.resolveCache (s : Dependency) : Except JSErr JSValue × Dependency :=
  let s1 := if s.cacheable then s else { s with serviceCached := none }
  match s1.serviceCached with
  | some c => (Except.ok c, s1)
  | none =>
    match s1.serviceInitializer with
    | CtorSpec.throws e => (Except.error (JSErr.ctorError e), s1)
    | CtorSpec.builds d =>
      (Except.ok ⟨s1.nextId, true, true, d⟩,
       { s1 with
          serviceCached := some ⟨s1.nextId, true, true, d⟩
          nextId := s1.nextId + 1
          constructedLog := s1.constructedLog ++ [s1.nextId] })

/-- The `resolve` getter: `if (this.#serviceInjected) return this.#serviceInjected;`
(a JS truthiness test, so a present-but-falsy injected value is skipped), then
the cache logic.  The result pairs the returned value (or thrown error) with
the post-state. -/
def Dependency.resolve (s : Dependency) : Except JSErr JSValue × Dependency :=
  match s.serviceInjected with
  | some v => if v.truthy then (Except.ok v, s) else s.resolveCache
  | none => s.resolveCache

/-- `[Symbol.dispose]()`, i.e. `this.#stack.dispose()`: on a not-yet-disposed
stack, dispose every `use`-registered value in reverse registration order, then
run the bottom `adopt` callback registered by the constructor, which sets
`#serviceInjected = undefined`; finally the stack is marked disposed.  On an
already-disposed stack, `dispose` is a no-op. -/
def Dependency.dispose (s : Dependency) : Dependency :=
  if s.stackDisposed then s
  else
    { s with
        released := s.released ++ (s.stackDisposables.reverse.map JSValue.vid)
        stackDisposables := []
        serviceInjected := none
        stackDisposed := true }

/-- JS truthiness of the `#serviceInjected` slot, the test `resolve` performs. -/
def Dependency.injectedTruthy (s : Dependency) : Bool :=
  match s.serviceInjected with
  | some v => v.truthy
  | none => false

/-- One client-visible operation on a container. -/
inductive Op where
  | injectOp (v : JSValue)
  | clearOp
  | resolveOp
  | disposeOp
deriving DecidableEq

/-- State transition of one operation (errors, where any, do not undo the
mutations that precede the throw). -/
def Dependency.step (s : Dependency) : Op → Dependency
  | Op.injectOp v => (s.injection v).1
  | Op.clearOp => s.clearInjected
  | Op.resolveOp => (s.resolve).2
  | Op.disposeOp => s.dispose

/-- Run a sequence of operations on a fresh container. -/
def Dependency.run (ctor : CtorSpec) (cacheable : Bool) (l : List Op) :
    Dependency :=
  l.foldl Dependency.step (Dependency.new ctor cacheable)

/-- Identity tags of all values ever passed to `injection` in a sequence. -/
def injectArgIds (l : List Op) : List Nat :=
  l.filterMap fun op =>
    match op with
    | Op.injectOp v => some v.vid
    | _ => none

/-- A disposable injectable object used by concrete scenarios. -/
def xDisp : JSValue := ⟨100, true, true, true⟩

/-- A second disposable injectable object. -/
def yDisp : JSValue := ⟨200, true, true, true⟩

/-- A falsy primitive service value (for example the number `0`). -/
def falsyVal : JSValue := ⟨300, false, false, false⟩

/-- The disposable instance that the recipe `CtorSpec.builds true` constructs
first on a fresh container (allocation counter `0`). -/
def cDisp : JSValue := ⟨0, true, true, true⟩

/-! ## Basic lemmas about the operations -/

/-- Overwriting an already-empty cache slot with `undefined` does not change
the state. -/
theorem Dependency.set_cached_none_eq (s : Dependency)
    (hc : s.serviceCached = none) : { s with serviceCached := none } = s := by
  cases s
  simp_all

/-- With an empty injected slot, `resolve` runs the cache logic. -/
theorem Dependency.resolve_of_injected_none (s : Dependency)
    (h : s.serviceInjected = none) : s.resolve = s.resolveCache := by
  unfold Dependency.resolve
  rw [h]

/-- With a truthy injected value, `resolve` returns it and changes nothing. -/
theorem Dependency.resolve_of_injected_truthy (s : Dependency) (v : JSValue)
    (h : s.serviceInjected = some v) (hv : v.truthy = true) :
    s.resolve = (Except.ok v, s) := by
  unfold Dependency.resolve
  rw [h]
  simp [hv]

/-- With caching enabled and a non-empty cache slot, the cache logic returns
the cached value and changes nothing. -/
theorem Dependency.resolveCache_cached (s : Dependency) (c : JSValue)
    (hcb : s.cacheable = true) (hc : s.serviceCached = some c) :
    s.resolveCache = (Except.ok c, s) := by
  unfold Dependency.resolveCache
  rw [hcb]
  simp [hc]

/-- With caching enabled and an empty cache slot, the cache logic builds a
fresh instance, stores it in the cache slot, and returns it. -/
theorem Dependency.resolveCache_builds (s : Dependency) (d : Bool)
    (hctor : s.serviceInitializer = CtorSpec.builds d)
    (hcb : s.cacheable = true) (hc : s.serviceCached = none) :
    s.resolveCache = (Except.ok ⟨s.nextId, true, true, d⟩,
      { s with serviceCached := some ⟨s.nextId, true, true, d⟩,
               nextId := s.nextId + 1,
               constructedLog := s.constructedLog ++ [s.nextId] }) := by
  unfold Dependency.resolveCache
  rw [hcb]
  simp [hc, hctor, hcb]

/-- With caching disabled, the cache logic discards the cache slot and builds
a fresh instance whatever the slot held. -/
theorem Dependency.resolveCache_nocache_builds (s : Dependency) (d : Bool)
    (hctor : s.serviceInitializer = CtorSpec.builds d)
    (hcb : s.cacheable = false) :
    s.resolveCache = (Except.ok ⟨s.nextId, true, true, d⟩,
      { s with serviceCached := some ⟨s.nextId, true, true, d⟩,
               nextId := s.nextId + 1,
               constructedLog := s.constructedLog ++ [s.nextId] }) := by
  obtain ⟨ctor, cb, inj, cach, stk, dis, nid, rel, clog⟩ := s
  simp_all [Dependency.resolveCache]

/-- With an empty cache slot and a throwing recipe, the cache logic propagates
the error and leaves the state unchanged. -/
theorem Dependency.resolveCache_throws (s : Dependency) (e : Nat)
    (hctor : s.serviceInitializer = CtorSpec.throws e)
    (hc : s.serviceCached = none) :
    s.resolveCache = (Except.error (JSErr.ctorError e), s) := by
  obtain ⟨ctor, cb, inj, cach, stk, dis, nid, rel, clog⟩ := s
  cases cb <;> simp_all [Dependency.resolveCache]

/-- With caching disabled and a throwing recipe, the cache logic discards the
cache slot and then propagates the error (the discard survives the throw). -/
theorem Dependency.resolveCache_nocache_throws (s : Dependency) (e : Nat)
    (hctor : s.serviceInitializer = CtorSpec.throws e)
    (hcb : s.cacheable = false) :
    s.resolveCache = (Except.error (JSErr.ctorError e),
                      { s with serviceCached := none }) := by
  obtain ⟨ctor, cb, inj, cach, stk, dis, nid, rel, clog⟩ := s
  simp_all [Dependency.resolveCache]

/-- In every branch (disposable or not, stack disposed or not), `injection`
leaves the injected slot holding the new value. -/
theorem Dependency.injection_fst_injected (s : Dependency) (v : JSValue) :
    ((s.injection v).1).serviceInjected = some v := by
  unfold Dependency.injection
  dsimp only
  split
  · split <;> rfl
  · rfl

/-- `injection` touches no field other than the injected slot and the
disposal-stack registrations. -/
theorem Dependency.injection_fst_fields (s : Dependency) (v : JSValue) :
    ((s.injection v).1).serviceCached = s.serviceCached
    ∧ ((s.injection v).1).cacheable = s.cacheable
    ∧ ((s.injection v).1).serviceInitializer = s.serviceInitializer
    ∧ ((s.injection v).1).nextId = s.nextId
    ∧ ((s.injection v).1).released = s.released
    ∧ ((s.injection v).1).constructedLog = s.constructedLog
    ∧ ((s.injection v).1).stackDisposed = s.stackDisposed := by
  unfold Dependency.injection
  dsimp only
  split
  · split <;> exact ⟨rfl, rfl, rfl, rfl, rfl, rfl, rfl⟩
  · exact ⟨rfl, rfl, rfl, rfl, rfl, rfl, rfl⟩

/-- Every value on the stack after an `injection` was on the stack before or
is the value just injected. -/
theorem Dependency.injection_fst_stack (s : Dependency) (v : JSValue)
    (w : JSValue) (hw : w ∈ ((s.injection v).1).stackDisposables) :
    w ∈ s.stackDisposables ∨ w = v := by
  unfold Dependency.injection at hw
  dsimp only at hw
  by_cases h1 : isDisposableVal v = true
  · by_cases h2 : s.stackDisposed = true
    · simp [h1, h2] at hw
      exact Or.inl hw
    · simp [h1, h2] at hw
      rcases hw with hw | hw
      · exact Or.inl hw
      · exact Or.inr hw
  · simp [h1] at hw
    exact Or.inl hw

/-- On an already-disposed stack, `[Symbol.dispose]` is a no-op. -/
theorem Dependency.dispose_of_disposed (s : Dependency)
    (h : s.stackDisposed = true) : s.dispose = s := by
  unfold Dependency.dispose
  simp [h]

/-- On a live stack, `[Symbol.dispose]` releases the registered values in
reverse registration order and clears the injected slot. -/
theorem Dependency.dispose_of_live (s : Dependency)
    (h : s.stackDisposed = false) :
    s.dispose = { s with
      released := s.released ++ (s.stackDisposables.reverse.map JSValue.vid)
      stackDisposables := []
      serviceInjected := none
      stackDisposed := true } := by
  unfold Dependency.dispose
  simp [h]

/-- The value `resolve` returns depends only on the injected slot, the cache
slot, the cacheable flag, the recipe and the allocation counter — not on the
disposal stack or the logs. -/
theorem Dependency.resolve_fst_eq_of_agree (s t : Dependency)
    (h1 : s.serviceInjected = t.serviceInjected)
    (h2 : s.serviceCached = t.serviceCached)
    (h3 : s.cacheable = t.cacheable)
    (h4 : s.serviceInitializer = t.serviceInitializer)
    (h5 : s.nextId = t.nextId) :
    (s.resolve).1 = (t.resolve).1 := by
  obtain ⟨ctor, cb, inj, cach, stk, dis, nid, rel, clog⟩ := s
  obtain ⟨ctor2, cb2, inj2, cach2, stk2, dis2, nid2, rel2, clog2⟩ := t
  dsimp only at h1 h2 h3 h4 h5
  subst h1 h2 h3 h4 h5
  unfold Dependency.resolve Dependency.resolveCache
  dsimp only
  cases inj with
  | none => cases cb <;> cases cach <;> cases ctor <;> rfl
  | some v =>
    cases hv : v.truthy <;> simp only [hv] <;>
      cases cb <;> cases cach <;> cases ctor <;> simp

/-- `resolve` never touches the disposal stack, the release log or the
injected slot. -/
theorem Dependency.resolve_snd_frame (s : Dependency) :
    ((s.resolve).2).released = s.released
    ∧ ((s.resolve).2).stackDisposables = s.stackDisposables
    ∧ ((s.resolve).2).stackDisposed = s.stackDisposed
    ∧ ((s.resolve).2).serviceInjected = s.serviceInjected := by
  obtain ⟨ctor, cb, inj, cach, stk, dis, nid, rel, clog⟩ := s
  unfold Dependency.resolve Dependency.resolveCache
  dsimp only
  cases inj with
  | none => cases cb <;> cases cach <;> cases ctor <;> simp
  | some v =>
    cases hv : v.truthy <;> simp only [hv] <;>
      cases cb <;> cases cach <;> cases ctor <;> simp

/-! ## C1 -/

/-- C1, counterexample.  The claim says `clearInjected()` invokes the release
operation of a disposable injected value exactly once.  On the concrete run
inject `xDisp` then `clearInjected`, the container invokes no release at all:
the release log stays empty, so the count of releases of `xDisp` is `0`, not
`1`.  (The slot is cleared, but the value stays registered on the disposal
stack and is released only at container disposal.) -/
theorem clearInjected_release_cex :
    ((((Dependency.new (CtorSpec.builds false) true).injection
        xDisp).1.clearInjected).released = [])
    ∧ ¬ (List.count xDisp.vid
          ((((Dependency.new (CtorSpec.builds false) true).injection
              xDisp).1.clearInjected).released) = 1) := by
  decide

/-- C1, amended.  `clearInjected` unconditionally clears the injected slot and
invokes no release operation: the release log, the disposal stack, the cache
slot, the recipe and the flag are untouched; calling it with no injected value
is a no-op; and on a not-yet-disposed container, disposal after
`clearInjected` behaves exactly as disposal without it (the registered
disposable is released there, not here). -/
theorem clearInjected_clears_without_release (s : Dependency)
    (hnd : s.stackDisposed = false) :
    (s.clearInjected).serviceInjected = none
    ∧ (s.clearInjected).released = s.released
    ∧ (s.clearInjected).stackDisposables = s.stackDisposables
    ∧ (s.clearInjected).serviceCached = s.serviceCached
    ∧ (s.clearInjected).serviceInitializer = s.serviceInitializer
    ∧ (s.clearInjected).cacheable = s.cacheable
    ∧ (s.clearInjected).clearInjected = s.clearInjected
    ∧ (s.clearInjected).dispose = s.dispose := by
  refine ⟨rfl, rfl, rfl, rfl, rfl, rfl, rfl, ?_⟩
  unfold Dependency.dispose Dependency.clearInjected
  simp [hnd]

/-- C1, witness for the amended theorem at the state reached by injecting
`xDisp` into a fresh container. -/
theorem clearInjected_clears_without_release_witness :
    ((((Dependency.new (CtorSpec.builds false) true).injection
        xDisp).1).stackDisposed = false)
    ∧ (((((Dependency.new (CtorSpec.builds false) true).injection
          xDisp).1).clearInjected).released
        = (((Dependency.new (CtorSpec.builds false) true).injection
            xDisp).1).released) :=
  ⟨by decide,
   (clearInjected_clears_without_release
     (((Dependency.new (CtorSpec.builds false) true).injection xDisp).1)
     (by decide)).2.1⟩

/-! ## C2 -/

/-- C2, counterexample.  The claim says that after injecting disposable `A`
then disposable `B` with no clearing in between, the release operation of `A`
is never invoked, in particular not at scoped disposal.  On the concrete run
inject `xDisp`, inject `yDisp`, dispose, the release log is
`[yDisp.vid, xDisp.vid]`: the release of `xDisp` IS invoked at disposal, so
its release count is not `0`. -/
theorem reinjection_leak_cex :
    (((((Dependency.new (CtorSpec.builds false) true).injection
        xDisp).1.injection yDisp).1.dispose).released = [yDisp.vid, xDisp.vid])
    ∧ ¬ (List.count xDisp.vid
          (((((Dependency.new (CtorSpec.builds false) true).injection
              xDisp).1.injection yDisp).1.dispose).released) = 0) := by
  decide

/-- C2, amended.  After injecting disposable `A` then disposable `B` into a
fresh container with no clearing in between, no release operation has been
invoked yet; at scoped disposal, BOTH values are released, in reverse
injection order (`B` first, then `A`) — the first injected disposable is not
leaked, it is merely deferred to container disposal. -/
theorem reinjection_release_at_disposal (ct : CtorSpec) (cb : Bool)
    (A B : JSValue) (hA : isDisposableVal A = true)
    (hB : isDisposableVal B = true) :
    ((((Dependency.new ct cb).injection A).1.injection B).1).released = []
    ∧ ((((Dependency.new ct cb).injection A).1.injection B).1.dispose).released
        = [B.vid, A.vid] := by
  simp [Dependency.new, Dependency.injection, Dependency.dispose, hA, hB]

/-- C2, witness for the amended theorem with `xDisp` and `yDisp`. -/
theorem reinjection_release_at_disposal_witness :
    (isDisposableVal xDisp = true) ∧ (isDisposableVal yDisp = true)
    ∧ ((((Dependency.new (CtorSpec.builds false) true).injection
          xDisp).1.injection yDisp).1).released = []
    ∧ ((((Dependency.new (CtorSpec.builds false) true).injection
          xDisp).1.injection yDisp).1.dispose).released
        = [yDisp.vid, xDisp.vid] :=
  ⟨by decide, by decide,
   (reinjection_release_at_disposal (CtorSpec.builds false) true xDisp yDisp
     (by decide) (by decide)).1,
   (reinjection_release_at_disposal (CtorSpec.builds false) true xDisp yDisp
     (by decide) (by decide)).2⟩

/-! ## C3 -/

/-- C3, counterexample.  The claim says that after `injection(x)` the resolve
accessor returns exactly `x` for EVERY service value and does not modify the
cache slot.  For the falsy service value `falsyVal` (for example the number
`0` under a numeric service type), the truthiness test
`if (this.#serviceInjected)` skips the injected slot: `resolve` falls through
to the recipe, returns a freshly constructed instance instead of the injected
value, and populates the cache slot. -/
theorem injection_falsy_cex :
    ¬ ((((((Dependency.new (CtorSpec.builds false) true).injection
            falsyVal).1).resolve).1 = Except.ok falsyVal)
       ∧ (((((Dependency.new (CtorSpec.builds false) true).injection
            falsyVal).1).resolve).2
          = (((Dependency.new (CtorSpec.builds false) true).injection
              falsyVal).1))) := by
  decide

/-- C3, amended.  For every TRUTHY service value `x`, after `injection(x)` the
resolve accessor returns exactly `x` — whatever the cache slot holds and
whatever the cacheable flag is — and leaves the whole state (in particular the
cache slot) unchanged. -/
theorem injection_priority (s : Dependency) (x : JSValue)
    (hx : x.truthy = true) :
    ((s.injection x).1).resolve = (Except.ok x, (s.injection x).1) :=
  Dependency.resolve_of_injected_truthy _ x
    (Dependency.injection_fst_injected s x) hx

/-- C3, witness for the amended theorem: inject `xDisp` into a fresh
container. -/
theorem injection_priority_witness :
    (xDisp.truthy = true)
    ∧ (((Dependency.new (CtorSpec.builds false) true).injection
          xDisp).1).resolve
        = (Except.ok xDisp,
           ((Dependency.new (CtorSpec.builds false) true).injection xDisp).1) :=
  ⟨by decide,
   injection_priority (Dependency.new (CtorSpec.builds false) true) xDisp
     (by decide)⟩

/-! ## C9 -/

/-- C9, counterexample.  The claim says `injection` never raises an error, in
every container state including after disposal.  Concretely: dispose a fresh
container, then inject the disposable `xDisp` — the internal
`DisposableStack.use` call throws a `ReferenceError`, so the error outcome is
not `none`. -/
theorem injection_after_dispose_cex :
    ((((Dependency.new (CtorSpec.builds false) true).dispose).injection
        xDisp).2 = some JSErr.referenceError)
    ∧ ¬ ((((Dependency.new (CtorSpec.builds false) true).dispose).injection
          xDisp).2 = none) := by
  decide

/-- C9, amended.  `injection` always sets the injected slot to the new value
(even when it throws, since the slot assignment precedes the stack
registration), and it raises an error if and only if the value passes the
disposable-capability check while the internal disposal stack has already been
disposed — in which case `DisposableStack.use` throws a `ReferenceError`.  In
every other situation it raises nothing. -/
theorem injection_error_iff (s : Dependency) (v : JSValue) :
    ((s.injection v).1).serviceInjected = some v
    ∧ ((s.injection v).2 = none
        ↔ ¬ (isDisposableVal v = true ∧ s.stackDisposed = true)) := by
  refine ⟨Dependency.injection_fst_injected s v, ?_⟩
  unfold Dependency.injection
  by_cases h1 : isDisposableVal v = true
  · by_cases h2 : s.stackDisposed = true <;> simp [h1, h2]
  · simp [h1]

/-- C9, witness for the amended theorem: injecting the non-disposable
`falsyVal` into a fresh container raises nothing. -/
theorem injection_error_iff_witness :
    (((Dependency.new (CtorSpec.builds false) true).injection
        falsyVal).1).serviceInjected = some falsyVal
    ∧ (((Dependency.new (CtorSpec.builds false) true).injection falsyVal).2
        = none
       ↔ ¬ (isDisposableVal falsyVal = true
            ∧ (Dependency.new (CtorSpec.builds false) true).stackDisposed
                = true)) :=
  injection_error_iff (Dependency.new (CtorSpec.builds false) true) falsyVal

/-! ## C4 -/

/-- C4.  With no injected value present: when `cacheable = true`, a successful
`resolve` is reference-stable — a second read from the resulting state returns
the identical instance and changes nothing; when `cacheable = false`, two
successive successful reads return distinct instances (distinct identity
tags). -/
theorem resolve_cache_identity (s : Dependency)
    (hinj : s.serviceInjected = none) :
    (s.cacheable = true → ∀ v s1, s.resolve = (Except.ok v, s1)
        → s1.resolve = (Except.ok v, s1))
    ∧ (s.cacheable = false → ∀ v s1 w s2, s.resolve = (Except.ok v, s1)
        → s1.resolve = (Except.ok w, s2) → v ≠ w) := by
  constructor
  · intro hcb v s1 h1
    rw [Dependency.resolve_of_injected_none s hinj] at h1
    cases hc : s.serviceCached with
    | some c =>
      rw [Dependency.resolveCache_cached s c hcb hc] at h1
      have hs : s = s1 := congrArg Prod.snd h1
      have hv : c = v := Except.ok.inj (congrArg Prod.fst h1)
      subst hs
      subst hv
      rw [Dependency.resolve_of_injected_none s hinj,
        Dependency.resolveCache_cached s c hcb hc]
    | none =>
      cases hctor : s.serviceInitializer with
      | throws e =>
        rw [Dependency.resolveCache_throws s e hctor hc] at h1
        exact absurd (congrArg Prod.fst h1) (by simp)
      | builds d =>
        rw [Dependency.resolveCache_builds s d hctor hcb hc] at h1
        have hs := congrArg Prod.snd h1
        have hv : (⟨s.nextId, true, true, d⟩ : JSValue) = v :=
          Except.ok.inj (congrArg Prod.fst h1)
        dsimp only at hs
        subst hs
        subst hv
        rw [Dependency.resolve_of_injected_none _ (by simpa using hinj),
          Dependency.resolveCache_cached _ _ (by simpa using hcb) rfl]
  · intro hcb v s1 w s2 h1 h2
    rw [Dependency.resolve_of_injected_none s hinj] at h1
    cases hctor : s.serviceInitializer with
    | throws e =>
      rw [Dependency.resolveCache_nocache_throws s e hctor hcb] at h1
      exact absurd (congrArg Prod.fst h1) (by simp)
    | builds d =>
      rw [Dependency.resolveCache_nocache_builds s d hctor hcb] at h1
      have hs := congrArg Prod.snd h1
      have hv : (⟨s.nextId, true, true, d⟩ : JSValue) = v :=
        Except.ok.inj (congrArg Prod.fst h1)
      dsimp only at hs
      subst hs
      subst hv
      rw [Dependency.resolve_of_injected_none _ (by simpa using hinj),
        Dependency.resolveCache_nocache_builds _ d (by simpa using hctor)
          (by simpa using hcb)] at h2
      have hw : (⟨s.nextId + 1, true, true, d⟩ : JSValue) = w :=
        Except.ok.inj (congrArg Prod.fst h2)
      subst hw
      intro hvw
      have : s.nextId = s.nextId + 1 := congrArg JSValue.vid hvw
      omega

/-- C4, witness at a fresh cacheable container (the caching half of the
conclusion, with the hypothesis discharged). -/
theorem resolve_cache_identity_witness :
    ((Dependency.new (CtorSpec.builds false) true).serviceInjected = none)
    ∧ ((Dependency.new (CtorSpec.builds false) true).cacheable = true
        → ∀ v s1, (Dependency.new (CtorSpec.builds false) true).resolve
            = (Except.ok v, s1) → s1.resolve = (Except.ok v, s1)) :=
  ⟨rfl,
   (resolve_cache_identity (Dependency.new (CtorSpec.builds false) true)
     rfl).1⟩

/-! ## C5 -/

/-- C5.  Reading `resolve` after `injection(x)` followed by `clearInjected()`
yields exactly the value it would have yielded had the `injection` call never
occurred: the injected slot, the cache slot, the flag, the recipe and the
allocation counter end up identical to the no-injection run, and the stack
difference is invisible to `resolve`.  In particular, with caching enabled a
previously cached instance is returned again. -/
theorem clear_reverts_injection (s : Dependency) (x : JSValue) :
    ((((s.injection x).1).clearInjected).resolve).1
      = ((s.clearInjected).resolve).1 := by
  apply Dependency.resolve_fst_eq_of_agree
  · rfl
  · exact (Dependency.injection_fst_fields s x).1
  · exact (Dependency.injection_fst_fields s x).2.1
  · exact (Dependency.injection_fst_fields s x).2.2.1
  · exact (Dependency.injection_fst_fields s x).2.2.2.1

/-! ## C6 -/

/-- C6, counterexample.  Two clauses of the claim fail on concrete runs.
First, the claim says that after disposal `resolve` no longer returns the
injected `x`.  Concretely: on a fresh cacheable container whose recipe builds
disposable instances, read `resolve` (constructing and caching `cDisp`),
inject that very instance `cDisp`, then dispose.  The release of `cDisp` runs
exactly once and the injected slot is cleared, but the next `resolve` read
falls through to the untouched cache slot and returns `cDisp` again — so it
is false that `resolve` no longer returns `x`.  Second, the claim says that
if no injection ever occurred, disposal changes nothing.  Concretely,
disposing a fresh container does change it: the internal stack becomes
disposed, so a later injection of the disposable `xDisp` throws a
`ReferenceError`, whereas without the disposal the same injection raises
nothing. -/
theorem dispose_claim_cex :
    ((((((Dependency.new (CtorSpec.builds true) true).resolve).2).injection
        cDisp).1.dispose).released = [cDisp.vid])
    ∧ ((((((Dependency.new (CtorSpec.builds true) true).resolve).2).injection
        cDisp).1.dispose).serviceInjected = none)
    ∧ (((((((Dependency.new (CtorSpec.builds true) true).resolve).2).injection
        cDisp).1.dispose).resolve).1 = Except.ok cDisp)
    ∧ ¬ (((((((Dependency.new (CtorSpec.builds true)
        true).resolve).2).injection cDisp).1.dispose).resolve).1
          ≠ Except.ok cDisp)
    ∧ (¬ ((Dependency.new (CtorSpec.builds true) true).dispose
         = Dependency.new (CtorSpec.builds true) true))
    ∧ ((((Dependency.new (CtorSpec.builds true) true).dispose).injection
        xDisp).2 = some JSErr.referenceError)
    ∧ (((Dependency.new (CtorSpec.builds true) true).injection xDisp).2
        = none) := by
  decide

/-- C6, amended.  For a disposable value `x` injected exactly once (and not
released before): scoped disposal invokes the release of `x` exactly once,
clears the injected slot, and leaves the cache slot, the recipe and the flag
unchanged.  Whether `resolve` then still returns `x` depends on the cache:
if `x` is not the cached instance (and is not the instance about to be
allocated), `resolve` no longer returns `x`; but when the injected `x` IS the
cached instance (injecting the container's own resolved instance), the next
`resolve` read falls through to the untouched cache slot and returns `x`
again — with caching enabled, `resolve` after disposal returns whatever the
cache holds.  If no injection ever occurred, disposal releases nothing and
leaves the injected slot, the cache slot and the recipe unchanged — but it
does mark the internal stack disposed (see the counterexample), so it is not
literally "nothing". -/
theorem dispose_releases_injected_once (s : Dependency) (x : JSValue)
    (hx : isDisposableVal x = true)
    (hinj : s.serviceInjected = some x)
    (hstack : s.stackDisposables = [x])
    (hnd : s.stackDisposed = false)
    (hrel : s.released.count x.vid = 0) :
    ((s.dispose).released = s.released ++ [x.vid])
    ∧ ((s.dispose).released.count x.vid = 1)
    ∧ ((s.dispose).serviceInjected = none)
    ∧ ((s.dispose).serviceCached = s.serviceCached)
    ∧ ((s.dispose).serviceInitializer = s.serviceInitializer)
    ∧ ((s.dispose).cacheable = s.cacheable)
    ∧ (s.serviceCached ≠ some x → x.vid ≠ s.nextId
        → ((s.dispose).resolve).1 ≠ Except.ok x)
    ∧ (∀ c, s.cacheable = true → s.serviceCached = some c
        → ((s.dispose).resolve).1 = Except.ok c)
    ∧ (∀ ct cb, ((Dependency.new ct cb).dispose).released = []
        ∧ ((Dependency.new ct cb).dispose).serviceInjected = none
        ∧ ((Dependency.new ct cb).dispose).serviceCached = none) := by
  have hs : s.dispose = { s with
      released := s.released ++ [x.vid]
      stackDisposables := []
      serviceInjected := none
      stackDisposed := true } := by
    rw [Dependency.dispose_of_live s hnd, hstack]
    simp
  refine ⟨by rw [hs], ?_, by rw [hs], by rw [hs], by rw [hs], by rw [hs],
    ?_, ?_, ?_⟩
  · rw [hs]
    simp [List.count_append, hrel]
  · intro hc hid
    rw [hs, Dependency.resolve_of_injected_none _ rfl]
    cases hcb : s.cacheable with
    | true =>
      cases hcch : s.serviceCached with
      | some c =>
        rw [Dependency.resolveCache_cached _ c (by simpa using hcb)
          (by simpa using hcch)]
        intro hcx
        exact hc (hcch ▸ congrArg some (Except.ok.inj hcx))
      | none =>
        cases hct : s.serviceInitializer with
        | throws e =>
          rw [Dependency.resolveCache_throws _ e (by simpa using hct)
            (by simpa using hcch)]
          simp
        | builds d =>
          rw [Dependency.resolveCache_builds _ d (by simpa using hct)
            (by simpa using hcb) (by simpa using hcch)]
          intro hcx
          exact hid (congrArg JSValue.vid (Except.ok.inj hcx)).symm
    | false =>
      cases hct : s.serviceInitializer with
      | throws e =>
        rw [Dependency.resolveCache_nocache_throws _ e (by simpa using hct)
          (by simpa using hcb)]
        simp
      | builds d =>
        rw [Dependency.resolveCache_nocache_builds _ d (by simpa using hct)
          (by simpa using hcb)]
        intro hcx
        exact hid (congrArg JSValue.vid (Except.ok.inj hcx)).symm
  · intro c hcb hcc
    rw [hs, Dependency.resolve_of_injected_none _ rfl,
      Dependency.resolveCache_cached _ c (by simpa using hcb)
        (by simpa using hcc)]
  · intro ct cb
    refine ⟨?_, ?_, ?_⟩ <;> simp [Dependency.new, Dependency.dispose]

/-- C6, witness at the state reached by injecting `xDisp` into a fresh
container. -/
theorem dispose_releases_injected_once_witness :
    (isDisposableVal xDisp = true)
    ∧ ((((Dependency.new (CtorSpec.builds false) true).injection
          xDisp).1).serviceInjected = some xDisp)
    ∧ (((((Dependency.new (CtorSpec.builds false) true).injection
          xDisp).1).dispose).released
        = ((((Dependency.new (CtorSpec.builds false) true).injection
            xDisp).1)).released ++ [xDisp.vid]) :=
  ⟨by decide, by decide,
   (dispose_releases_injected_once
     (((Dependency.new (CtorSpec.builds false) true).injection xDisp).1)
     xDisp (by decide) (by decide) (by decide) (by decide) (by decide)).1⟩

/-! ## C7 -/

/-- Identity tags absent from the disposal stack and the release log, and
never injected by the remaining operations, stay out of both across any run:
the release log only ever receives tags of injected values. -/
theorem Dependency.released_mono_aux (l : List Op) (s : Dependency) (i : Nat)
    (h1 : ∀ v ∈ s.stackDisposables, v.vid ≠ i)
    (h2 : i ∉ s.released)
    (h3 : ∀ v : JSValue, Op.injectOp v ∈ l → v.vid ≠ i) :
    i ∉ (l.foldl Dependency.step s).released
    ∧ ∀ v ∈ (l.foldl Dependency.step s).stackDisposables, v.vid ≠ i := by
  induction l generalizing s with
  | nil => exact ⟨h2, h1⟩
  | cons op rest ih =>
    simp only [List.foldl_cons]
    apply ih
    · intro v hv
      cases op with
      | injectOp w =>
        rcases Dependency.injection_fst_stack s w v hv with h | h
        · exact h1 v h
        · subst h
          exact h3 v (by simp)
      | clearOp => exact h1 v hv
      | resolveOp =>
        unfold Dependency.step at hv
        rw [(Dependency.resolve_snd_frame s).2.1] at hv
        exact h1 v hv
      | disposeOp =>
        unfold Dependency.step at hv
        cases hd : s.stackDisposed with
        | false =>
          rw [Dependency.dispose_of_live s hd] at hv
          simp at hv
        | true =>
          rw [Dependency.dispose_of_disposed s hd] at hv
          exact h1 v hv
    · cases op with
      | injectOp w =>
        rw [show (Dependency.step s (Op.injectOp w)).released = s.released
          from (Dependency.injection_fst_fields s w).2.2.2.2.1]
        exact h2
      | clearOp => exact h2
      | resolveOp =>
        rw [show (Dependency.step s Op.resolveOp).released = s.released from
          (Dependency.resolve_snd_frame s).1]
        exact h2
      | disposeOp =>
        unfold Dependency.step
        cases hd : s.stackDisposed with
        | false =>
          rw [Dependency.dispose_of_live s hd]
          dsimp only
          intro hmem
          rcases List.mem_append.mp hmem with hmem | hmem
          · exact h2 hmem
          · rcases List.mem_map.mp hmem with ⟨w, hw, hwv⟩
            exact h1 w (List.mem_reverse.mp hw) hwv
        | true =>
          rw [Dependency.dispose_of_disposed s hd]
          exact h2
    · intro v hv
      exact h3 v (by simp [hv])

/-- C7.  An instance produced by the recipe during a run (its tag appears in
the construction log) that is never passed to `injection` in that run is never
released by the container, across any sequence of inject, clearInjected,
resolve and scoped-disposal operations. -/
theorem constructed_never_released (ct : CtorSpec) (cb : Bool) (l : List Op)
    (i : Nat) (h : i ∉ injectArgIds l)
    (hcon : i ∈ (Dependency.run ct cb l).constructedLog) :
    i ∉ (Dependency.run ct cb l).released := by
  have h3 : ∀ v : JSValue, Op.injectOp v ∈ l → v.vid ≠ i := by
    intro v hv hvi
    apply h
    unfold injectArgIds
    exact List.mem_filterMap.mpr ⟨Op.injectOp v, hv, by simp [hvi]⟩
  exact (Dependency.released_mono_aux l (Dependency.new ct cb) i
    (by simp [Dependency.new]) (by simp [Dependency.new]) h3).1

/-- C7, witness: a run that constructs instance `0`, disposes the container,
and resolves again — instance `0` is never released. -/
theorem constructed_never_released_witness :
    (0 ∉ injectArgIds [Op.resolveOp, Op.disposeOp, Op.resolveOp])
    ∧ (0 ∈ (Dependency.run (CtorSpec.builds true) true
          [Op.resolveOp, Op.disposeOp, Op.resolveOp]).constructedLog)
    ∧ (0 ∉ (Dependency.run (CtorSpec.builds true) true
          [Op.resolveOp, Op.disposeOp, Op.resolveOp]).released) :=
  ⟨by decide, by decide,
   constructed_never_released (CtorSpec.builds true) true
     [Op.resolveOp, Op.disposeOp, Op.resolveOp] 0 (by decide) (by decide)⟩

/-! ## C8 -/

/-- A container state whose cache slot holds the falsy value `falsyVal`
(such a state is not reachable through the API — recipe construction always
yields objects — but it is exactly the premise of the claim). -/
def falsyCacheState : Dependency :=
  { serviceInitializer := CtorSpec.builds false
    cacheable := true
    serviceInjected := none
    serviceCached := some falsyVal
    stackDisposables := []
    stackDisposed := false
    nextId := 0
    released := []
    constructedLog := [] }

/-- C8, counterexample.  The claim says a falsy cached value is treated as
"no cached value" and triggers reconstruction.  On the concrete state holding
the falsy `falsyVal` in its cache slot (caching enabled, nothing injected),
`resolve` returns the cached falsy value itself, changes nothing, and in
particular constructs no new instance: the cache-validity test is the nullish
test of the `??=` operator, not a truthiness test. -/
theorem falsy_cache_cex :
    ((falsyCacheState.resolve).1 = Except.ok falsyVal)
    ∧ ((falsyCacheState.resolve).2 = falsyCacheState)
    ∧ ¬ (((falsyCacheState.resolve).2).constructedLog
          ≠ falsyCacheState.constructedLog) := by
  decide

/-- C8, amended.  With caching enabled and nothing injected, a PRESENT cached
value — even a falsy one — is returned as-is with no state change; only an
unset (nullish) cache slot triggers construction from the recipe. -/
theorem nullish_cache_check (s : Dependency) (c : JSValue)
    (hinj : s.serviceInjected = none) (hcb : s.cacheable = true)
    (hc : s.serviceCached = some c) (hcf : c.truthy = false) :
    s.resolve = (Except.ok c, s) := by
  rw [Dependency.resolve_of_injected_none s hinj,
    Dependency.resolveCache_cached s c hcb hc]

/-- C8, witness at the concrete falsy-cache state. -/
theorem nullish_cache_check_witness :
    (falsyCacheState.serviceInjected = none)
    ∧ (falsyCacheState.cacheable = true)
    ∧ (falsyCacheState.serviceCached = some falsyVal)
    ∧ (falsyVal.truthy = false)
    ∧ (falsyCacheState.resolve = (Except.ok falsyVal, falsyCacheState)) :=
  ⟨rfl, rfl, rfl, rfl,
   nullish_cache_check falsyCacheState falsyVal rfl rfl rfl rfl⟩

/-! ## C10 -/

/-- C10.  With nothing injected and an empty cache slot, a throwing recipe
makes `resolve` propagate exactly the recipe error, with the container state
unchanged — so a subsequent `resolve` read attempts construction again and
fails the same way. -/
theorem ctor_error_propagates (s : Dependency) (e : Nat)
    (hinj : s.serviceInjected = none) (hc : s.serviceCached = none)
    (hctor : s.serviceInitializer = CtorSpec.throws e) :
    s.resolve = (Except.error (JSErr.ctorError e), s)
    ∧ (((s.resolve).2).resolve = (Except.error (JSErr.ctorError e), s)) := by
  have h1 : s.resolve = (Except.error (JSErr.ctorError e), s) := by
    rw [Dependency.resolve_of_injected_none s hinj,
      Dependency.resolveCache_throws s e hctor hc]
  exact ⟨h1, by rw [h1]; exact h1⟩

/-- C10, witness at a fresh container whose recipe throws error `7`. -/
theorem ctor_error_propagates_witness :
    ((Dependency.new (CtorSpec.throws 7) true).serviceInjected = none)
    ∧ ((Dependency.new (CtorSpec.throws 7) true).serviceCached = none)
    ∧ ((Dependency.new (CtorSpec.throws 7) true).serviceInitializer
        = CtorSpec.throws 7)
    ∧ ((Dependency.new (CtorSpec.throws 7) true).resolve
        = (Except.error (JSErr.ctorError 7),
           Dependency.new (CtorSpec.throws 7) true)) :=
  ⟨rfl, rfl, rfl,
   (ctor_error_propagates (Dependency.new (CtorSpec.throws 7) true) 7
     rfl rfl rfl).1⟩

end SimpleDI
